import Mathlib

set_option linter.unusedVariables false

/-
Verification of the kling-avatar command-line scripts.

The repository consists of three Python scripts (kling_lipsync.py, avatar.py,
clone_voice.py) that orchestrate third-party cloud AI services.  We embed the
control flow of each script shallowly: the external world (HTTP responses,
wall-clock times, user keyboard input, upload results) is supplied through
explicit oracle arguments, pure computations are translated directly, and the
observable actions of a run (HTTP requests, file writes, prints, process
exits) are collected into event traces.  Exceptions (Python raise / sys.exit)
terminate a trace; they are modelled by the trace simply ending (optionally
with an explicit event).
-/

namespace KlingAvatar

/-- Shift an oracle stream by one position: the view of the stream after the
first element has been consumed. -/
def shift {α : Type} (f : Nat → α) : Nat → α := fun i => f (i + 1)

/-! ## Python string primitives used by the scripts -/

/-- Python `s.startswith(pre)`: `pre` is a prefix of `s`.  (Defined over the
character list so that it evaluates by kernel reduction.) -/
def pyStartsWith (s pre : String) : Bool := pre.data.isPrefixOf s.data

/-- Python `s.lower()` (ASCII case folding, as used on the y/N answer). -/
def pyLower (s : String) : String := ⟨s.data.map Char.toLower⟩

/-- Python `s.strip()`: remove leading and trailing whitespace. -/
def pyStrip (s : String) : String :=
  ⟨((s.data.dropWhile Char.isWhitespace).reverse.dropWhile Char.isWhitespace).reverse⟩

/-- Python `s.isascii()`: every character has a code point below 128 (true
for the empty string). -/
def pyIsAscii (s : String) : Bool := s.data.all (fun c => c.toNat ≤ 127)

/-- `os.path.basename(p)`: the part of the path after the last slash. -/
def basename (p : String) : String :=
  ⟨(p.data.reverse.takeWhile (fun c => c != '/')).reverse⟩

/-! ## kling_lipsync.py: task data and the polling loop -/

/-- One task-status record as parsed from the JSON body of a polling GET in
kling_lipsync.py: `resp.json()["data"]`, with its `task_status` field, its
optional `task_status_msg` field, and the parts of `task_result` that the
script reads (url and id of `task_result.videos[0]`). -/
structure TaskData where
  task_status : String
  task_status_msg : Option String
  video_url : String
  video_id : String
deriving DecidableEq, Repr

/-- Outcome of `poll` in kling_lipsync.py: normal return of the data object,
the RuntimeError raised on a "failed" status (carrying the formatted
message "Task failed: ..."), or the RuntimeError("Timed out waiting for
task") raised when the attempt budget is exhausted. -/
inductive PollResult where
  | success (data : TaskData)
  | failedErr (msg : String)
  | timeoutErr
deriving DecidableEq, Repr

/-- A status is terminal when it is "succeed" or "failed"; every other
status keeps the loop polling. -/
def isTerminal (d : TaskData) : Bool :=
  decide (d.task_status = "succeed" ∨ d.task_status = "failed")

/-- The body of the `for attempt in range(max_attempts)` loop of `poll`,
with the remaining attempt budget as fuel.  The response stream `r` gives
the parsed data object of each successive GET; consuming one response
shifts the stream. -/
def pollAux (r : Nat → TaskData) : Nat → PollResult
  | 0 => .timeoutErr
  | m + 1 =>
    if (r 0).task_status = "succeed" then
      .success (r 0)
    else if (r 0).task_status = "failed" then
      .failedErr ("Task failed: " ++ ((r 0).task_status_msg.getD "unknown error"))
    else
      pollAux (shift r) m

/-- `poll(url, interval=5, max_attempts=120)` from kling_lipsync.py.  The
response stream `r` stands for the parsed JSON data of each GET to `url`
(we model the runs in which every GET returns parseable task JSON; an
HTTP-level error from `raise_for_status` would propagate out of the loop).
The sleeping and the requests themselves are modelled by `pollEvents` and
`pollRequests` below; the value returned or raised only depends on the
responses. -/
def poll (r : Nat → TaskData) (interval : Nat := 5) (max_attempts : Nat := 120) :
    PollResult :=
  pollAux r max_attempts

/-- Observable actions of one run of the polling loop: a `time.sleep(interval)`
and an HTTP GET per attempt. -/
inductive PollEvent where
  | sleepFor (seconds : Nat)
  | httpGet
deriving DecidableEq, Repr

/-- The sleep/GET actions of the polling loop, with fuel, mirroring
`pollAux`: each iteration first sleeps `interval` seconds, then issues one
GET, and stops after a terminal status. -/
def pollEventsAux (interval : Nat) (r : Nat → TaskData) : Nat → List PollEvent
  | 0 => []
  | m + 1 =>
    .sleepFor interval :: .httpGet ::
      (if isTerminal (r 0) then [] else pollEventsAux interval (shift r) m)

/-- The sleep/GET actions of `poll(url, interval=5, max_attempts=120)`. -/
def pollEvents (r : Nat → TaskData) (interval : Nat := 5) (max_attempts : Nat := 120) :
    List PollEvent :=
  pollEventsAux interval r max_attempts

/-- Number of GET requests the polling loop issues, with fuel. -/
def attemptsUsedAux (r : Nat → TaskData) : Nat → Nat
  | 0 => 0
  | m + 1 => 1 + (if isTerminal (r 0) then 0 else attemptsUsedAux (shift r) m)

/-- Number of GET requests `poll` issues within a budget of `max_attempts`. -/
def attemptsUsed (r : Nat → TaskData) (max_attempts : Nat) : Nat :=
  attemptsUsedAux r max_attempts

lemma isTerminal_eq_false {d : TaskData} :
    isTerminal d = false ↔ d.task_status ≠ "succeed" ∧ d.task_status ≠ "failed" := by
  simp [isTerminal, not_or]

lemma pollAux_succ_of_succeed {r : Nat → TaskData} {m : Nat}
    (h : (r 0).task_status = "succeed") :
    pollAux r (m + 1) = .success (r 0) := by
  simp only [pollAux]
  rw [if_pos h]

lemma pollAux_succ_of_failed {r : Nat → TaskData} {m : Nat}
    (h1 : (r 0).task_status ≠ "succeed") (h2 : (r 0).task_status = "failed") :
    pollAux r (m + 1) =
      .failedErr ("Task failed: " ++ ((r 0).task_status_msg.getD "unknown error")) := by
  simp only [pollAux]
  rw [if_neg h1, if_pos h2]

lemma pollAux_succ_of_pending {r : Nat → TaskData} {m : Nat}
    (h1 : (r 0).task_status ≠ "succeed") (h2 : (r 0).task_status ≠ "failed") :
    pollAux r (m + 1) = pollAux (shift r) m := by
  simp only [pollAux]
  rw [if_neg h1, if_neg h2]

lemma pollAux_success_iff (m : Nat) (r : Nat → TaskData) (d : TaskData) :
    pollAux r m = .success d ↔
      ∃ i, i < m ∧ (∀ j, j < i → isTerminal (r j) = false) ∧
        (r i).task_status = "succeed" ∧ d = r i := by
  induction m generalizing r with
  | zero => simp [pollAux]
  | succ m ih =>
    by_cases h1 : (r 0).task_status = "succeed"
    · rw [pollAux_succ_of_succeed h1]
      constructor
      · intro h
        injection h with h
        exact ⟨0, Nat.succ_pos m, fun j hj => absurd hj (Nat.not_lt_zero j), h1, h.symm⟩
      · rintro ⟨i, _, hpre, hsucc, hd⟩
        rcases Nat.eq_zero_or_pos i with hi | hi
        · subst hi; rw [hd]
        · have := hpre 0 hi
          rw [isTerminal_eq_false] at this
          exact absurd h1 this.1
    · by_cases h2 : (r 0).task_status = "failed"
      · rw [pollAux_succ_of_failed h1 h2]
        constructor
        · intro h; cases h
        · rintro ⟨i, _, hpre, hsucc, _⟩
          rcases Nat.eq_zero_or_pos i with hi | hi
          · subst hi; exact absurd hsucc h1
          · have := hpre 0 hi
            rw [isTerminal_eq_false] at this
            exact absurd h2 this.2
      · have hnt : isTerminal (r 0) = false := isTerminal_eq_false.mpr ⟨h1, h2⟩
        rw [pollAux_succ_of_pending h1 h2, ih (shift r)]
        constructor
        · rintro ⟨i, him, hpre, hsucc, hd⟩
          refine ⟨i + 1, by omega, ?_, hsucc, hd⟩
          intro j hj
          cases j with
          | zero => exact hnt
          | succ j => exact hpre j (by omega)
        · rintro ⟨i, him, hpre, hsucc, hd⟩
          cases i with
          | zero => exact absurd hsucc h1
          | succ i =>
            refine ⟨i, by omega, ?_, hsucc, hd⟩
            intro j hj
            exact hpre (j + 1) (by omega)

lemma pollAux_failed_iff (m : Nat) (r : Nat → TaskData) (msg : String) :
    pollAux r m = .failedErr msg ↔
      ∃ i, i < m ∧ (∀ j, j < i → isTerminal (r j) = false) ∧
        (r i).task_status = "failed" ∧
        msg = "Task failed: " ++ ((r i).task_status_msg.getD "unknown error") := by
  induction m generalizing r with
  | zero => simp [pollAux]
  | succ m ih =>
    by_cases h1 : (r 0).task_status = "succeed"
    · rw [pollAux_succ_of_succeed h1]
      constructor
      · intro h; cases h
      · rintro ⟨i, _, hpre, hfail, _⟩
        rcases Nat.eq_zero_or_pos i with hi | hi
        · subst hi
          rw [h1] at hfail
          exact absurd hfail (by decide)
        · have := hpre 0 hi
          rw [isTerminal_eq_false] at this
          exact absurd h1 this.1
    · by_cases h2 : (r 0).task_status = "failed"
      · rw [pollAux_succ_of_failed h1 h2]
        constructor
        · intro h
          injection h with h
          exact ⟨0, Nat.succ_pos m, fun j hj => absurd hj (Nat.not_lt_zero j), h2, h.symm⟩
        · rintro ⟨i, _, hpre, hfail, hmsg⟩
          rcases Nat.eq_zero_or_pos i with hi | hi
          · subst hi; rw [hmsg]
          · have := hpre 0 hi
            rw [isTerminal_eq_false] at this
            exact absurd h2 this.2
      · have hnt : isTerminal (r 0) = false := isTerminal_eq_false.mpr ⟨h1, h2⟩
        rw [pollAux_succ_of_pending h1 h2, ih (shift r)]
        constructor
        · rintro ⟨i, him, hpre, hfail, hmsg⟩
          refine ⟨i + 1, by omega, ?_, hfail, hmsg⟩
          intro j hj
          cases j with
          | zero => exact hnt
          | succ j => exact hpre j (by omega)
        · rintro ⟨i, him, hpre, hfail, hmsg⟩
          cases i with
          | zero => exact absurd hfail h2
          | succ i =>
            refine ⟨i, by omega, ?_, hfail, hmsg⟩
            intro j hj
            exact hpre (j + 1) (by omega)

lemma pollAux_timeout_iff (m : Nat) (r : Nat → TaskData) :
    pollAux r m = .timeoutErr ↔ ∀ i, i < m → isTerminal (r i) = false := by
  induction m generalizing r with
  | zero => simp [pollAux]
  | succ m ih =>
    by_cases h1 : (r 0).task_status = "succeed"
    · rw [pollAux_succ_of_succeed h1]
      constructor
      · intro h; cases h
      · intro h
        have := h 0 (Nat.succ_pos m)
        rw [isTerminal_eq_false] at this
        exact absurd h1 this.1
    · by_cases h2 : (r 0).task_status = "failed"
      · rw [pollAux_succ_of_failed h1 h2]
        constructor
        · intro h; cases h
        · intro h
          have := h 0 (Nat.succ_pos m)
          rw [isTerminal_eq_false] at this
          exact absurd h2 this.2
      · have hnt : isTerminal (r 0) = false := isTerminal_eq_false.mpr ⟨h1, h2⟩
        rw [pollAux_succ_of_pending h1 h2, ih (shift r)]
        constructor
        · intro h i hi
          cases i with
          | zero => exact hnt
          | succ i => exact h i (by omega)
        · intro h i hi
          exact h (i + 1) (by omega)

lemma pollEventsAux_eq_replicate (m : Nat) (interval : Nat) (r : Nat → TaskData) :
    pollEventsAux interval r m =
      (List.replicate (attemptsUsedAux r m)
        [PollEvent.sleepFor interval, PollEvent.httpGet]).flatten := by
  induction m generalizing r with
  | zero => simp [pollEventsAux, attemptsUsedAux]
  | succ m ih =>
    cases h : isTerminal (r 0) with
    | true => simp [pollEventsAux, attemptsUsedAux, h]
    | false =>
      simp only [pollEventsAux, attemptsUsedAux, h, if_neg Bool.false_ne_true]
      rw [ih (shift r), Nat.add_comm 1, List.replicate_succ, List.flatten_cons]
      rfl

lemma attemptsUsedAux_le (m : Nat) (r : Nat → TaskData) :
    attemptsUsedAux r m ≤ m := by
  induction m generalizing r with
  | zero => simp [attemptsUsedAux]
  | succ m ih =>
    cases h : isTerminal (r 0) with
    | true => simp [attemptsUsedAux, h]
    | false =>
      simp only [attemptsUsedAux, h, if_neg Bool.false_ne_true]
      have := ih (shift r)
      omega

lemma attemptsUsedAux_pos (m : Nat) (r : Nat → TaskData) (hm : 0 < m) :
    1 ≤ attemptsUsedAux r m := by
  cases m with
  | zero => omega
  | succ m =>
    cases h : isTerminal (r 0) with
    | true => simp [attemptsUsedAux, h]
    | false =>
      simp only [attemptsUsedAux, h, if_neg Bool.false_ne_true]
      omega

/-- C1: `poll(url, interval, max_attempts)` returns the task data object
exactly when some issued GET within the attempt budget reports
`task_status = "succeed"` (an attempt is issued exactly when no earlier
attempt saw a terminal status, so the existence of such a GET is the
condition that the first terminal attempt within the budget succeeded);
it raises RuntimeError carrying the task_status_msg, with default
"unknown error" when that field is absent, exactly when some issued GET
reports `task_status = "failed"`; and it raises the timeout RuntimeError
exactly when none of the max_attempts responses is terminal — every status
other than "succeed" and "failed" keeps the loop polling. -/
theorem C1_poll_terminal_states (r : Nat → TaskData) (interval max_attempts : Nat) :
    (∀ d, poll r interval max_attempts = .success d ↔
      ∃ i, i < max_attempts ∧ (∀ j, j < i → isTerminal (r j) = false) ∧
        (r i).task_status = "succeed" ∧ d = r i) ∧
    (∀ msg, poll r interval max_attempts = .failedErr msg ↔
      ∃ i, i < max_attempts ∧ (∀ j, j < i → isTerminal (r j) = false) ∧
        (r i).task_status = "failed" ∧
        msg = "Task failed: " ++ ((r i).task_status_msg.getD "unknown error")) ∧
    (poll r interval max_attempts = .timeoutErr ↔
      ∀ i, i < max_attempts → isTerminal (r i) = false) :=
  ⟨fun d => pollAux_success_iff max_attempts r d,
   fun msg => pollAux_failed_iff max_attempts r msg,
   pollAux_timeout_iff max_attempts r⟩

/-- C1 at a concrete input: a stream whose third GET reports "succeed"
after two "processing" responses makes `poll` return that data object. -/
theorem C1_poll_terminal_states_witness :
    poll (fun i => if i < 2
      then TaskData.mk "processing" none "" ""
      else TaskData.mk "succeed" none "https://cdn.example.com/v.mp4" "v") 5 120 =
      .success (TaskData.mk "succeed" none "https://cdn.example.com/v.mp4" "v") :=
  ((C1_poll_terminal_states (fun i => if i < 2
      then TaskData.mk "processing" none "" ""
      else TaskData.mk "succeed" none "https://cdn.example.com/v.mp4" "v") 5 120).1 _).mpr
    ⟨2, by decide, fun j hj => by interval_cases j <;> decide, by decide, by decide⟩

/-- C2: the polling loop is bounded and always terminates.  Its action
trace is exactly `attemptsUsed` repetitions of [sleep interval; GET] — so
it issues at most `max_attempts` GET requests, each preceded by a fixed
sleep of `interval` seconds — the defaults are interval = 5 and
max_attempts = 120, and the result is always one of: the returned data,
the raised failure error, or the raised timeout error. -/
theorem C2_poll_bounded (r : Nat → TaskData) (interval max_attempts : Nat) :
    pollEvents r interval max_attempts =
      (List.replicate (attemptsUsed r max_attempts)
        [PollEvent.sleepFor interval, PollEvent.httpGet]).flatten ∧
    attemptsUsed r max_attempts ≤ max_attempts ∧
    poll r = poll r 5 120 ∧ pollEvents r = pollEvents r 5 120 ∧
    ((∃ d, poll r interval max_attempts = .success d) ∨
      (∃ msg, poll r interval max_attempts = .failedErr msg) ∨
      poll r interval max_attempts = .timeoutErr) := by
  refine ⟨pollEventsAux_eq_replicate max_attempts interval r,
    attemptsUsedAux_le max_attempts r, rfl, rfl, ?_⟩
  cases h : poll r interval max_attempts with
  | success d => exact Or.inl ⟨d, rfl⟩
  | failedErr msg => exact Or.inr (Or.inl ⟨msg, rfl⟩)
  | timeoutErr => exact Or.inr (Or.inr rfl)

/-- C2 at a concrete input: a stream that never reaches a terminal status
within a budget of 3 attempts uses at most 3 GETs and times out. -/
theorem C2_poll_bounded_witness :
    attemptsUsed (fun _ => TaskData.mk "processing" none "" "") 3 ≤ 3 ∧
    pollEvents (fun _ => TaskData.mk "processing" none "" "") 7 3 =
      (List.replicate (attemptsUsed (fun _ => TaskData.mk "processing" none "" "") 3)
        [PollEvent.sleepFor 7, PollEvent.httpGet]).flatten :=
  ⟨(C2_poll_bounded (fun _ => TaskData.mk "processing" none "" "") 7 3).2.1,
   (C2_poll_bounded (fun _ => TaskData.mk "processing" none "" "") 7 3).1⟩

/-! ## kling_lipsync.py: JWT auth and the HTTP requests of a full run -/

/-- `BASE_URL` from kling_lipsync.py. -/
def BASE_URL : String := "https://api-singapore.klingai.com"

/-- The tmpfiles.org upload endpoint used by `image_to_video` and
`lip_sync` for hosting local files. -/
def TMPFILES_UPLOAD_URL : String := "https://tmpfiles.org/api/v1/upload"

/-- The JWT produced by `get_token`: `jwt.encode(payload, SECRET_KEY,
algorithm="HS256", headers=...)` is modelled abstractly as the record of
everything that is passed to it — the payload claims, the algorithm/typ
header fields, and the signing key. -/
structure JwtToken where
  iss : String
  exp : Int
  nbf : Int
  alg : String
  typ : String
  signingKey : String
deriving DecidableEq, Repr

/-- `get_token()` from kling_lipsync.py, with the module globals
ACCESS_KEY / SECRET_KEY and the current unix time `now = int(time.time())`
as arguments. -/
def get_token (accessKey secretKey : String) (now : Int) : JwtToken :=
  { iss := accessKey
    exp := now + 1800
    nbf := now - 5
    alg := "HS256"
    typ := "JWT"
    signingKey := secretKey }

/-- The header dictionary built by `auth_headers()`: an
`Authorization: Bearer <token>` entry holding a freshly generated token and
a `Content-Type: application/json` entry. -/
structure Headers where
  authorizationBearer : JwtToken
  contentType : String
deriving DecidableEq, Repr

/-- `auth_headers()` from kling_lipsync.py, at current time `now`. -/
def auth_headers (accessKey secretKey : String) (now : Int) : Headers :=
  { authorizationBearer := get_token accessKey secretKey now
    contentType := "application/json" }

/-- One HTTP request issued by kling_lipsync.py: its method, URL, header
dictionary (`none` when the call passes no headers, as for the tmpfiles
upload and the result download), and the wall-clock time at which it is
issued. -/
structure Request where
  method : String
  url : String
  headers : Option Headers
  time : Int
deriving DecidableEq, Repr

/-- The GET requests issued by the polling loop of `poll(url, ...)`, with
fuel, mirroring `pollAux`: each attempt issues one GET to `url` with
`headers=auth_headers()` evaluated at that attempt's time, and the loop
stops after a terminal status.  `clock` gives the issue time of each
successive request. -/
def pollRequests (accessKey secretKey : String) (clock : Nat → Int) (url : String)
    (r : Nat → TaskData) : Nat → List Request
  | 0 => []
  | m + 1 =>
    { method := "GET", url := url,
      headers := some (auth_headers accessKey secretKey (clock 0)),
      time := clock 0 } ::
      (if isTerminal (r 0) then []
       else pollRequests accessKey secretKey (shift clock) url (shift r) m)

/-- requests.raise_for_status() raises an HTTPError exactly for status
codes 400-599. -/
def isHttpErrorStatus (status : Nat) : Bool :=
  decide (400 ≤ status) && decide (status < 600)

/-- An observable action of a kling_lipsync.py run: an HTTP request or a
local file write (progress prints are omitted). -/
inductive KEvent where
  | request (req : Request)
  | writeFile (path content : String)
deriving DecidableEq, Repr

/-- The HTTP requests of `image_to_video(image_path)` up to and including
its polling loop: the optional tmpfiles.org hosting upload when
`image_path` is a local path (no auth headers), the image2video submission
POST with `headers=auth_headers()`, and the polling GETs against the task
endpoint.  `clock` gives the issue times of the phase's requests in order;
`taskId` is the task id parsed from the submission response and `r` the
stream of parsed polling responses. -/
def image_to_video_events (accessKey secretKey imagePath taskId : String)
    (clock : Nat → Int) (r : Nat → TaskData) : List KEvent :=
  let up : List KEvent :=
    if pyStartsWith imagePath "http" then []
    else [.request { method := "POST", url := TMPFILES_UPLOAD_URL,
                     headers := none, time := clock 0 }]
  let c : Nat → Int := fun i => clock (i + up.length)
  up ++ .request { method := "POST", url := BASE_URL ++ "/v1/videos/image2video",
                   headers := some (auth_headers accessKey secretKey (c 0)),
                   time := c 0 } ::
    (pollRequests accessKey secretKey (fun i => c (i + 1))
      (BASE_URL ++ "/v1/videos/image2video/" ++ taskId) r 120).map .request

/-- The HTTP requests of `lip_sync(video_url, audio_path)` up to and
including its polling loop, in the same shape as `image_to_video_events`
but against the lip-sync endpoint. -/
def lip_sync_events (accessKey secretKey audioPath taskId : String)
    (clock : Nat → Int) (r : Nat → TaskData) : List KEvent :=
  let up : List KEvent :=
    if pyStartsWith audioPath "http" then []
    else [.request { method := "POST", url := TMPFILES_UPLOAD_URL,
                     headers := none, time := clock 0 }]
  let c : Nat → Int := fun i => clock (i + up.length)
  up ++ .request { method := "POST", url := BASE_URL ++ "/v1/videos/lip-sync",
                   headers := some (auth_headers accessKey secretKey (c 0)),
                   time := c 0 } ::
    (pollRequests accessKey secretKey (fun i => c (i + 1))
      (BASE_URL ++ "/v1/videos/lip-sync/" ++ taskId) r 120).map .request

/-- The oracle for a kling_lipsync.py `__main__` run: issue times of the
requests of each phase, task ids parsed from the two submission responses,
the two streams of parsed polling responses, and the status/body of the
final video download. -/
structure KlingOracle where
  clock1 : Nat → Int
  clock2 : Nat → Int
  dlTime : Int
  taskId1 : String
  taskId2 : String
  r1 : Nat → TaskData
  r2 : Nat → TaskData
  dlStatus : Nat
  dlBody : String

/-- The observable actions of the kling_lipsync.py `__main__` pipeline:
`image_to_video(image_path)` then, when its poll returned, `lip_sync` on
the resulting video url, then, when that poll returned as well,
`download(lip_sync_url, output_path)` — a GET without auth headers
followed, if `raise_for_status` passes, by the file write.  A RuntimeError
from either polling loop propagates and ends the run. -/
def klingMainRun (accessKey secretKey imagePath audioPath outputPath : String)
    (o : KlingOracle) : List KEvent :=
  let step1 := image_to_video_events accessKey secretKey imagePath o.taskId1 o.clock1 o.r1
  match poll o.r1 5 120 with
  | .success _ =>
    let step2 := lip_sync_events accessKey secretKey audioPath o.taskId2 o.clock2 o.r2
    match poll o.r2 5 120 with
    | .success d2 =>
      step1 ++ step2 ++
        .request { method := "GET", url := d2.video_url, headers := none,
                   time := o.dlTime } ::
        (if isHttpErrorStatus o.dlStatus then []
         else [.writeFile outputPath o.dlBody])
    | _ => step1 ++ step2
  | _ => step1

/-- The HTTP requests among a list of observable actions. -/
def requestsOf (events : List KEvent) : List Request :=
  events.filterMap fun e =>
    match e with
    | .request req => some req
    | _ => none

lemma mem_pollRequests {accessKey secretKey : String} {clock : Nat → Int} {url : String}
    {r : Nat → TaskData} {m : Nat} {req : Request}
    (h : req ∈ pollRequests accessKey secretKey clock url r m) :
    req.method = "GET" ∧ req.url = url ∧
      req.headers = some (auth_headers accessKey secretKey req.time) := by
  induction m generalizing clock r with
  | zero => simp [pollRequests] at h
  | succ m ih =>
    simp only [pollRequests, List.mem_cons] at h
    rcases h with h | h
    · subst h
      exact ⟨rfl, rfl, rfl⟩
    · by_cases ht : isTerminal (r 0)
      · rw [if_pos ht] at h
        simp at h
      · rw [if_neg ht] at h
        exact ih h

lemma mem_image_to_video_events {accessKey secretKey imagePath taskId : String}
    {clock : Nat → Int} {r : Nat → TaskData} {req : Request}
    (h : KEvent.request req ∈ image_to_video_events accessKey secretKey imagePath taskId clock r) :
    (req.url = TMPFILES_UPLOAD_URL ∧ req.headers = none) ∨
      req.headers = some (auth_headers accessKey secretKey req.time) := by
  unfold image_to_video_events at h
  by_cases hip : pyStartsWith imagePath "http"
  · rw [if_pos hip] at h
    simp only [List.nil_append, List.mem_cons, List.mem_map] at h
    rcases h with h | ⟨q, hq, hqe⟩
    · injection h with h
      subst h
      exact Or.inr rfl
    · injection hqe with hqe
      subst hqe
      exact Or.inr (mem_pollRequests hq).2.2
  · rw [if_neg hip] at h
    simp only [List.cons_append, List.nil_append, List.mem_cons, List.mem_map] at h
    rcases h with h | h | ⟨q, hq, hqe⟩
    · injection h with h
      subst h
      exact Or.inl ⟨rfl, rfl⟩
    · injection h with h
      subst h
      exact Or.inr rfl
    · injection hqe with hqe
      subst hqe
      exact Or.inr (mem_pollRequests hq).2.2

lemma mem_lip_sync_events {accessKey secretKey audioPath taskId : String}
    {clock : Nat → Int} {r : Nat → TaskData} {req : Request}
    (h : KEvent.request req ∈ lip_sync_events accessKey secretKey audioPath taskId clock r) :
    (req.url = TMPFILES_UPLOAD_URL ∧ req.headers = none) ∨
      req.headers = some (auth_headers accessKey secretKey req.time) := by
  unfold lip_sync_events at h
  by_cases hap : pyStartsWith audioPath "http"
  · rw [if_pos hap] at h
    simp only [List.nil_append, List.mem_cons, List.mem_map] at h
    rcases h with h | ⟨q, hq, hqe⟩
    · injection h with h
      subst h
      exact Or.inr rfl
    · injection hqe with hqe
      subst hqe
      exact Or.inr (mem_pollRequests hq).2.2
  · rw [if_neg hap] at h
    simp only [List.cons_append, List.nil_append, List.mem_cons, List.mem_map] at h
    rcases h with h | h | ⟨q, hq, hqe⟩
    · injection h with h
      subst h
      exact Or.inl ⟨rfl, rfl⟩
    · injection h with h
      subst h
      exact Or.inr rfl
    · injection hqe with hqe
      subst hqe
      exact Or.inr (mem_pollRequests hq).2.2

lemma tmpfiles_not_kling : pyStartsWith TMPFILES_UPLOAD_URL BASE_URL = false := by decide

/-- C6: every HTTP request that a kling_lipsync.py run sends to the Kling
API (URL under BASE_URL: the image2video and lip-sync submission POSTs and
every polling GET) carries the header dictionary built by auth_headers()
at its own issue time: Content-Type application/json and an Authorization
Bearer token that is an HS256 JWT signed with SECRET_KEY whose payload is
iss = ACCESS_KEY, exp = issue time + 1800 and nbf = issue time - 5.  The
hypothesis records that the CDN video url handed back by the lip-sync task
does not itself sit under BASE_URL (it is an address of the result file,
not of the API; the tmpfiles.org hosting upload provably is not). -/
theorem C6_kling_requests_authenticated
    (accessKey secretKey imagePath audioPath outputPath : String) (o : KlingOracle)
    (hdl : ∀ i, pyStartsWith ((o.r2 i).video_url) BASE_URL = false) :
    ∀ req ∈ requestsOf (klingMainRun accessKey secretKey imagePath audioPath outputPath o),
      pyStartsWith req.url BASE_URL = true →
        req.headers = some
          { authorizationBearer :=
              { iss := accessKey, exp := req.time + 1800, nbf := req.time - 5,
                alg := "HS256", typ := "JWT", signingKey := secretKey }
            contentType := "application/json" } := by
  intro req hreq hkling
  rw [requestsOf, List.mem_filterMap] at hreq
  obtain ⟨e, he, hfe⟩ := hreq
  cases e with
  | writeFile p c => cases hfe
  | request q =>
    have hqe : q = req := by injection hfe
    rw [hqe] at he
    unfold klingMainRun at he
    have finish :
        (req.url = TMPFILES_UPLOAD_URL ∧ req.headers = none) ∨
          req.headers = some (auth_headers accessKey secretKey req.time) →
        req.headers = some
          { authorizationBearer :=
              { iss := accessKey, exp := req.time + 1800, nbf := req.time - 5,
                alg := "HS256", typ := "JWT", signingKey := secretKey }
            contentType := "application/json" } := by
      rintro (⟨hurl, _⟩ | hh)
      · rw [hurl] at hkling
        rw [tmpfiles_not_kling] at hkling
        cases hkling
      · exact hh
    cases hp1 : poll o.r1 5 120 with
    | failedErr msg =>
      rw [hp1] at he
      exact finish (mem_image_to_video_events he)
    | timeoutErr =>
      rw [hp1] at he
      exact finish (mem_image_to_video_events he)
    | success d1 =>
      rw [hp1] at he
      cases hp2 : poll o.r2 5 120 with
      | failedErr msg =>
        rw [hp2] at he
        rcases List.mem_append.mp he with h | h
        · exact finish (mem_image_to_video_events h)
        · exact finish (mem_lip_sync_events h)
      | timeoutErr =>
        rw [hp2] at he
        rcases List.mem_append.mp he with h | h
        · exact finish (mem_image_to_video_events h)
        · exact finish (mem_lip_sync_events h)
      | success d2 =>
        rw [hp2] at he
        rcases List.mem_append.mp he with h | h
        · rcases List.mem_append.mp h with h | h
          · exact finish (mem_image_to_video_events h)
          · exact finish (mem_lip_sync_events h)
        · rcases List.mem_cons.mp h with h | h
          · injection h with h
            have hurl : req.url = d2.video_url := by rw [h]
            obtain ⟨i, _, _, _, hd2⟩ := (pollAux_success_iff 120 o.r2 d2).mp hp2
            rw [hurl, hd2, hdl i] at hkling
            cases hkling
          · by_cases hst : isHttpErrorStatus o.dlStatus
            · rw [if_pos hst] at h
              simp at h
            · rw [if_neg hst] at h
              simp at h

/-- A concrete oracle for a fully successful kling_lipsync.py run: both
polls succeed on the first attempt and the lip-sync result sits on a CDN
address outside BASE_URL. -/
def klingOracleEx : KlingOracle :=
  { clock1 := fun _ => 1000, clock2 := fun _ => 2000, dlTime := 3000
    taskId1 := "t1", taskId2 := "t2"
    r1 := fun _ => { task_status := "succeed", task_status_msg := none,
                     video_url := "https://cdn.example.com/a.mp4", video_id := "vid1" }
    r2 := fun _ => { task_status := "succeed", task_status_msg := none,
                     video_url := "https://cdn.example.com/v.mp4", video_id := "vid" }
    dlStatus := 200, dlBody := "bytes" }

/-- A concrete successful run exercising C6: both inputs local, both polls
succeed, and every request under BASE_URL carries the fresh-token auth
headers. -/
theorem C6_kling_requests_authenticated_witness :
    (∀ i, pyStartsWith ((klingOracleEx.r2 i).video_url) BASE_URL = false) ∧
    ∀ req ∈ requestsOf (klingMainRun "ak" "sk" "pele.png" "speech.mp3" "out.mp4" klingOracleEx),
      pyStartsWith req.url BASE_URL = true →
        req.headers = some
          { authorizationBearer :=
              { iss := "ak", exp := req.time + 1800, nbf := req.time - 5,
                alg := "HS256", typ := "JWT", signingKey := "sk" }
            contentType := "application/json" } :=
  ⟨fun _ => rfl,
   C6_kling_requests_authenticated "ak" "sk" "pele.png" "speech.mp3" "out.mp4" klingOracleEx
     (fun _ => rfl)⟩

/-! ## Local filesystem model, download (kling_lipsync.py) and the final
save of generate_avatar (avatar.py) -/

/-- The local filesystem: each path maps to the content of the file at that
path, or `none` when no file exists there. -/
abbrev FS := String → Option String

/-- An HTTP response as seen by `requests.get`: status code and body. -/
structure HttpResponse where
  status : Nat
  body : String
deriving DecidableEq, Repr

/-- Whether a download call returned normally or raised the HTTPError of
`raise_for_status`. -/
inductive DownloadOutcome where
  | ok
  | raisedHttpError
deriving DecidableEq, Repr

/-- `download(url, output_path)` from kling_lipsync.py: GET the url (the
response is the oracle `resp`), call `raise_for_status`, and only then
open `output_path` for writing and write `resp.content`.  Returns the
filesystem after the call together with whether an exception propagated. -/
def download (fs : FS) (output_path : String) (resp : HttpResponse) :
    FS × DownloadOutcome :=
  if isHttpErrorStatus resp.status then
    (fs, .raisedHttpError)
  else
    (fun p => if p = output_path then some resp.body else fs p, .ok)

/-- The final save of `generate_avatar` (avatar.py lines 188-192): the same
GET / raise_for_status / write shape as `download`, inlined in the
function. -/
def generate_avatar_save (fs : FS) (output_path : String) (resp : HttpResponse) :
    FS × DownloadOutcome :=
  if isHttpErrorStatus resp.status then
    (fs, .raisedHttpError)
  else
    (fun p => if p = output_path then some resp.body else fs p, .ok)

/-- C7: in both download sites (`download` in kling_lipsync.py and the
final save of `generate_avatar` in avatar.py) the output file is opened
only after `raise_for_status` passed: on an error status (400-599) the
HTTPError propagates and the filesystem is unchanged — the file at
output_path is neither created nor overwritten — while on a passing status
the file at output_path holds exactly the response body and every other
path is untouched. -/
theorem C7_download_writes_only_on_success (fs : FS) (output_path : String)
    (resp : HttpResponse) :
    ((isHttpErrorStatus resp.status = true →
        download fs output_path resp = (fs, .raisedHttpError)) ∧
     (isHttpErrorStatus resp.status = false →
        (download fs output_path resp).2 = .ok ∧
        (download fs output_path resp).1 output_path = some resp.body ∧
        ∀ q, q ≠ output_path → (download fs output_path resp).1 q = fs q)) ∧
    ((isHttpErrorStatus resp.status = true →
        generate_avatar_save fs output_path resp = (fs, .raisedHttpError)) ∧
     (isHttpErrorStatus resp.status = false →
        (generate_avatar_save fs output_path resp).2 = .ok ∧
        (generate_avatar_save fs output_path resp).1 output_path = some resp.body ∧
        ∀ q, q ≠ output_path → (generate_avatar_save fs output_path resp).1 q = fs q)) := by
  refine ⟨⟨fun h => ?_, fun h => ?_⟩, ⟨fun h => ?_, fun h => ?_⟩⟩
  · simp [download, h]
  · refine ⟨by simp [download, h], by simp [download, h], fun q hq => ?_⟩
    simp [download, h, hq]
  · simp [generate_avatar_save, h]
  · refine ⟨by simp [generate_avatar_save, h], by simp [generate_avatar_save, h],
      fun q hq => ?_⟩
    simp [generate_avatar_save, h, hq]

/-- C7 at concrete inputs: a 404 response leaves the filesystem untouched,
and a 200 response stores the body at the output path. -/
theorem C7_download_writes_only_on_success_witness :
    (isHttpErrorStatus (404 : Nat) = true ∧
      download (fun _ => none) "out.mp4" { status := 404, body := "x" } =
        ((fun _ => none), .raisedHttpError)) ∧
    (isHttpErrorStatus (200 : Nat) = false ∧
      (download (fun _ => none) "out.mp4" { status := 200, body := "x" }).1 "out.mp4" =
        some "x") :=
  ⟨⟨by decide,
    ((C7_download_writes_only_on_success (fun _ => none) "out.mp4"
      { status := 404, body := "x" }).1.1 (by decide))⟩,
   ⟨by decide,
    ((C7_download_writes_only_on_success (fun _ => none) "out.mp4"
      { status := 200, body := "x" }).1.2 (by decide)).2.1⟩⟩

/-! ## avatar.py: upload_to_fal -/

/-- The observable result of one call to `upload_to_fal(path)`:
the filesystem afterwards, the call to `fal_client.upload_file` that was
made (the path handed to it, paired with the content of that path at call
time) or `none` when an exception fired before the upload, and the value
returned or error raised. -/
structure UploadRun where
  fs : FS
  uploaded : Option (String × Option String)
  result : Except String String

/-- `upload_to_fal(path)` from avatar.py.  When the basename of `path` is
pure ASCII the file is uploaded from its original path.  Otherwise a
`tempfile.NamedTemporaryFile(suffix=ext, delete=False)` is created on disk
as an empty file (its fresh name is the oracle `tmpName`), then
`shutil.copy2` copies the file onto it.  Both of these happen before the
`try/finally`: when the source does not exist, `shutil.copy2` raises
FileNotFoundError there, the `finally` never runs, and the empty
temporary file is leaked.  When the copy succeeds, the copy is uploaded
inside the `try`, and the `finally` block unlinks the temporary file
whether or not `fal_client.upload_file` raised (`uploadRaises`). -/
def upload_to_fal (fs : FS) (path tmpName : String) (uploadRaises : Bool)
    (uploadUrl : String) : UploadRun :=
  if pyIsAscii (basename path) then
    { fs := fs
      uploaded := some (path, fs path)
      result := if uploadRaises then .error "upload failed" else .ok uploadUrl }
  else
    match fs path with
    | none =>
      { fs := fun p => if p = tmpName then some "" else fs p
        uploaded := none
        result := .error "FileNotFoundError" }
    | some content =>
      { fs := fun p => if p = tmpName then none else fs p
        uploaded := some (tmpName, some content)
        result := if uploadRaises then .error "upload failed" else .ok uploadUrl }

/-- C8: `upload_to_fal` uploads from the original path when the basename is
pure ASCII and leaves the filesystem untouched; otherwise — whenever the
input file exists, which is when a temporary copy is made at all — it
uploads a temporary copy with the original content, and the temporary
file is gone afterwards even when the upload raises; every other path —
in particular the original file — is never modified or deleted.  On the
error path where the input file does not exist, no copy is made and
nothing is uploaded: `shutil.copy2` raises before the `try/finally`, so
the empty temporary file created by NamedTemporaryFile is leaked — the
original location is still untouched. -/
theorem C8_upload_to_fal_temp_copy (fs : FS) (path tmpName : String)
    (uploadRaises : Bool) (uploadUrl : String) (h : tmpName ≠ path) :
    (pyIsAscii (basename path) = true →
      (upload_to_fal fs path tmpName uploadRaises uploadUrl).uploaded = some (path, fs path) ∧
      (upload_to_fal fs path tmpName uploadRaises uploadUrl).fs = fs) ∧
    (pyIsAscii (basename path) = false →
      (∀ content, fs path = some content →
        (upload_to_fal fs path tmpName uploadRaises uploadUrl).uploaded =
          some (tmpName, some content) ∧
        (upload_to_fal fs path tmpName uploadRaises uploadUrl).fs tmpName = none) ∧
      (fs path = none →
        (upload_to_fal fs path tmpName uploadRaises uploadUrl).uploaded = none ∧
        (upload_to_fal fs path tmpName uploadRaises uploadUrl).result =
          .error "FileNotFoundError" ∧
        (upload_to_fal fs path tmpName uploadRaises uploadUrl).fs tmpName = some "") ∧
      (∀ q, q ≠ tmpName →
        (upload_to_fal fs path tmpName uploadRaises uploadUrl).fs q = fs q) ∧
      (upload_to_fal fs path tmpName uploadRaises uploadUrl).fs path = fs path) := by
  constructor
  · intro hascii
    rw [upload_to_fal, if_pos hascii]
    exact ⟨rfl, rfl⟩
  · intro hascii
    rw [upload_to_fal, if_neg (by simp [hascii])]
    cases hc : fs path with
    | none =>
      refine ⟨fun content hcontent => ?_, fun _ => ⟨rfl, rfl, by simp⟩,
        fun q hq => by simp [hq], by simp [h.symm, hc]⟩
      cases hcontent
    | some content =>
      refine ⟨fun c hcontent => ?_, fun hnone => ?_,
        fun q hq => by simp [hq], by simp [h.symm, hc]⟩
      · injection hcontent with hcontent
        subst hcontent
        exact ⟨rfl, by simp⟩
      · cases hnone

/-- C8 at a concrete input: a non-ASCII basename makes the call upload a
temporary copy and delete it afterwards even though the upload raised,
leaving the original file intact. -/
theorem C8_upload_to_fal_temp_copy_witness :
    ("/tmp/tmpabc123.mp3" : String) ≠ "pelé.mp3" ∧
    pyIsAscii (basename "pelé.mp3") = false ∧
    (upload_to_fal (fun p => if p = "pelé.mp3" then some "AUDIO" else none)
        "pelé.mp3" "/tmp/tmpabc123.mp3" true "unused").fs "/tmp/tmpabc123.mp3" = none ∧
    (upload_to_fal (fun p => if p = "pelé.mp3" then some "AUDIO" else none)
        "pelé.mp3" "/tmp/tmpabc123.mp3" true "unused").fs "pelé.mp3" = some "AUDIO" := by
  have hne : ("/tmp/tmpabc123.mp3" : String) ≠ "pelé.mp3" := by decide
  have hmain := C8_upload_to_fal_temp_copy
    (fun p => if p = "pelé.mp3" then some "AUDIO" else none)
    "pelé.mp3" "/tmp/tmpabc123.mp3" true "unused" hne
  have hascii : pyIsAscii (basename "pelé.mp3") = false := by decide
  refine ⟨hne, hascii, ((hmain.2 hascii).1 "AUDIO" (by decide)).2, ?_⟩
  rw [(hmain.2 hascii).2.2.2]
  decide

/-! ## avatar.py: cost confirmation, the generate_avatar flow and the
SIGINT handler -/

/-- `PRICE_PER_SECOND = 0.0562` from avatar.py (the float is idealised as
the rational it denotes in the source text). -/
def PRICE_PER_SECOND : ℚ := 562 / 10000

/-- Python `round(x, 2)`: round to two decimal places. -/
def round2 (x : ℚ) : ℚ := (round (x * 100) : ℤ) / 100

/-- An observable action of an avatar.py `generate_avatar` run (progress
prints are omitted; the prints the claims speak about are kept). -/
inductive AvEvent where
  | printMsg (s : String)
  | uploadFal (path : String)
  | printCost (cost : ℚ)
  | promptUser
  | exitProc (code : Nat)
  | installSigint
  | subscribeJob (imageUrl audioUrl promptText : String)
  | restoreSigint
  | httpGetReq (url : String)
  | writeFile (path content : String)
  | cancelJob (requestId : String)
deriving DecidableEq

/-- `confirm_cost(audio_path, yes)` from avatar.py: print the duration and
the estimated cost `round(duration * PRICE_PER_SECOND, 2)`; with
`yes=True` return immediately, otherwise prompt, and unless the answer
stripped and lowercased is exactly "y", print Cancelled and
`sys.exit(0)`.  `duration` is the oracle for `get_audio_duration`,
`answer` the oracle for `input()`.  Returns the emitted events and whether
the caller continues (False means the process exited). -/
def confirm_cost (duration : ℚ) (yes : Bool) (answer : String) :
    List AvEvent × Bool :=
  let cost := round2 (duration * PRICE_PER_SECOND)
  if yes then
    ([.printCost cost], true)
  else if pyLower (pyStrip answer) = "y" then
    ([.printCost cost, .promptUser], true)
  else
    ([.printCost cost, .promptUser, .printMsg "  Cancelled.", .exitProc 0], false)

/-- The oracles of a `generate_avatar` run: the fal.ai storage urls of the
two uploads, the audio duration, the video url of the subscribe result,
and the status/body of the final download. -/
structure AvatarOracle where
  imageUrl : String
  audioUrl : String
  duration : ℚ
  videoUrl : String
  dlStatus : Nat
  dlBody : String

/-- `generate_avatar(image_path, audio_path, output_path, prompt, yes)`
from avatar.py: check FAL_KEY, upload each non-http input to fal.ai
storage, run `confirm_cost`, and if it returned, install the SIGINT
handler, run `fal_client.subscribe` (the submission of the job; we model
the runs in which it returns normally), restore the default SIGINT
disposition, then GET the result video and, when `raise_for_status`
passes, write it to `output_path`. -/
def generate_avatar (falKeySet : Bool)
    (imagePath audioPath outputPath promptText : String) (yes : Bool)
    (answer : String) (o : AvatarOracle) : List AvEvent :=
  if falKeySet = false then
    [.printMsg "Error: set FAL_KEY environment variable", .exitProc 1]
  else
    let upEvents : List AvEvent :=
      (if pyStartsWith imagePath "http" then [] else [.uploadFal imagePath]) ++
      (if pyStartsWith audioPath "http" then [] else [.uploadFal audioPath])
    let imageUrl := if pyStartsWith imagePath "http" then imagePath else o.imageUrl
    let audioUrl := if pyStartsWith audioPath "http" then audioPath else o.audioUrl
    let c := confirm_cost o.duration yes answer
    upEvents ++ c.1 ++
      (if c.2 then
        [.installSigint, .subscribeJob imageUrl audioUrl promptText, .restoreSigint,
         .httpGetReq o.videoUrl] ++
        (if isHttpErrorStatus o.dlStatus then [] else [.writeFile outputPath o.dlBody])
      else [])

/-- The nested `handle_sigint(sig, frame)` of `generate_avatar`: if a
request_id has been recorded (Python truthiness: a non-None, non-empty
string), print, attempt `fal_client.cancel` — whose own failure is caught
and reported, not propagated (`cancelOutcome` is the oracle for that call)
— and in all cases `sys.exit(1)`. -/
def handle_sigint (request_id : Option String) (cancelOutcome : Except String Unit) :
    List AvEvent :=
  (match request_id with
   | some rid =>
     if rid = "" then []
     else
       .printMsg ("  Cancelling job " ++ rid ++ "...") ::
       .cancelJob rid ::
       (match cancelOutcome with
        | .ok _ => [.printMsg "  Job cancelled."]
        | .error e => [.printMsg ("  Cancel failed: " ++ e)])
   | none => []) ++ [.exitProc 1]

lemma confirm_cost_yes (duration : ℚ) (answer : String) :
    confirm_cost duration true answer =
      ([.printCost (round2 (duration * PRICE_PER_SECOND))], true) := rfl

lemma confirm_cost_answered_y (duration : ℚ) (answer : String)
    (h : pyLower (pyStrip answer) = "y") :
    confirm_cost duration false answer =
      ([.printCost (round2 (duration * PRICE_PER_SECOND)), .promptUser], true) := by
  simp [confirm_cost, h]

lemma confirm_cost_declined (duration : ℚ) (answer : String)
    (h : pyLower (pyStrip answer) ≠ "y") :
    confirm_cost duration false answer =
      ([.printCost (round2 (duration * PRICE_PER_SECOND)), .promptUser,
        .printMsg "  Cancelled.", .exitProc 0], false) := by
  simp [confirm_cost, h]

lemma generate_avatar_shape (imagePath audioPath outputPath promptText : String)
    (yes : Bool) (answer : String) (o : AvatarOracle) :
    generate_avatar true imagePath audioPath outputPath promptText yes answer o =
      ((if pyStartsWith imagePath "http" then [] else [AvEvent.uploadFal imagePath]) ++
       (if pyStartsWith audioPath "http" then [] else [AvEvent.uploadFal audioPath])) ++
      (confirm_cost o.duration yes answer).1 ++
      (if (confirm_cost o.duration yes answer).2 then
        [AvEvent.installSigint,
         AvEvent.subscribeJob
           (if pyStartsWith imagePath "http" then imagePath else o.imageUrl)
           (if pyStartsWith audioPath "http" then audioPath else o.audioUrl)
           promptText,
         AvEvent.restoreSigint, AvEvent.httpGetReq o.videoUrl] ++
        (if isHttpErrorStatus o.dlStatus then []
         else [AvEvent.writeFile outputPath o.dlBody])
      else []) := rfl

/-- C3: with `yes=False` the fal.ai job submission happens only after the
estimated cost `round(duration * 0.0562, 2)` has been printed and the user
answered exactly "y" after stripping and lowercasing: on any other answer
the trace contains no subscribe call, ends with `sys.exit(0)`, and still
contains the cost print; on "y" the subscribe call appears and the cost
print and prompt precede it.  With `yes=True` no prompt is shown and
submission proceeds after the cost print. -/
theorem C3_cost_confirmation_gates_submission
    (imagePath audioPath outputPath promptText : String) (yes : Bool)
    (answer : String) (o : AvatarOracle) :
    (yes = false → pyLower (pyStrip answer) ≠ "y" →
      (∀ iu au p, AvEvent.subscribeJob iu au p ∉
        generate_avatar true imagePath audioPath outputPath promptText yes answer o) ∧
      (generate_avatar true imagePath audioPath outputPath promptText yes answer o).getLast?
        = some (.exitProc 0) ∧
      AvEvent.printCost (round2 (o.duration * PRICE_PER_SECOND)) ∈
        generate_avatar true imagePath audioPath outputPath promptText yes answer o) ∧
    (yes = false → pyLower (pyStrip answer) = "y" →
      ∃ pre post,
        generate_avatar true imagePath audioPath outputPath promptText yes answer o =
          pre ++ AvEvent.subscribeJob
            (if pyStartsWith imagePath "http" then imagePath else o.imageUrl)
            (if pyStartsWith audioPath "http" then audioPath else o.audioUrl)
            promptText :: post ∧
        AvEvent.printCost (round2 (o.duration * PRICE_PER_SECOND)) ∈ pre ∧
        AvEvent.promptUser ∈ pre) ∧
    (yes = true →
      AvEvent.promptUser ∉
        generate_avatar true imagePath audioPath outputPath promptText yes answer o ∧
      ∃ pre post,
        generate_avatar true imagePath audioPath outputPath promptText yes answer o =
          pre ++ AvEvent.subscribeJob
            (if pyStartsWith imagePath "http" then imagePath else o.imageUrl)
            (if pyStartsWith audioPath "http" then audioPath else o.audioUrl)
            promptText :: post ∧
        AvEvent.printCost (round2 (o.duration * PRICE_PER_SECOND)) ∈ pre) := by
  have hsh := generate_avatar_shape imagePath audioPath outputPath promptText yes answer o
  refine ⟨fun hyes hans => ?_, fun hyes hans => ?_, fun hyes => ?_⟩
  · subst hyes
    rw [confirm_cost_declined o.duration answer hans] at hsh
    rw [if_neg Bool.false_ne_true, List.append_nil] at hsh
    refine ⟨fun iu au p => ?_, ?_, ?_⟩
    · rw [hsh]
      by_cases hi : pyStartsWith imagePath "http" <;>
        by_cases ha : pyStartsWith audioPath "http" <;> simp [hi, ha]
    · rw [hsh]
      rw [List.getLast?_append]
      rfl
    · rw [hsh]
      simp
  · subst hyes
    rw [confirm_cost_answered_y o.duration answer hans] at hsh
    simp only [if_pos rfl] at hsh
    refine ⟨((if pyStartsWith imagePath "http" then [] else [AvEvent.uploadFal imagePath]) ++
      (if pyStartsWith audioPath "http" then [] else [AvEvent.uploadFal audioPath])) ++
      [AvEvent.printCost (round2 (o.duration * PRICE_PER_SECOND)), AvEvent.promptUser,
        AvEvent.installSigint],
      [AvEvent.restoreSigint, AvEvent.httpGetReq o.videoUrl] ++
        (if isHttpErrorStatus o.dlStatus then [] else [AvEvent.writeFile outputPath o.dlBody]),
      ?_, by simp, by simp⟩
    rw [hsh]
    simp
  · subst hyes
    rw [confirm_cost_yes o.duration answer] at hsh
    simp only [if_pos rfl] at hsh
    constructor
    · rw [hsh]
      by_cases hi : pyStartsWith imagePath "http" <;>
        by_cases ha : pyStartsWith audioPath "http" <;>
          by_cases hs : isHttpErrorStatus o.dlStatus <;> simp [hi, ha, hs]
    · refine ⟨((if pyStartsWith imagePath "http" then [] else [AvEvent.uploadFal imagePath]) ++
        (if pyStartsWith audioPath "http" then [] else [AvEvent.uploadFal audioPath])) ++
        [AvEvent.printCost (round2 (o.duration * PRICE_PER_SECOND)), AvEvent.installSigint],
        [AvEvent.restoreSigint, AvEvent.httpGetReq o.videoUrl] ++
          (if isHttpErrorStatus o.dlStatus then [] else [AvEvent.writeFile outputPath o.dlBody]),
        ?_, by simp⟩
      rw [hsh]
      simp

/-- C3 at concrete inputs: a declined run (answer " n ") never subscribes
and exits 0, and a `--yes` run subscribes with no prompt. -/
theorem C3_cost_confirmation_gates_submission_witness :
    (false = false ∧ pyLower (pyStrip " n ") ≠ "y" ∧
      ∀ iu au p, AvEvent.subscribeJob iu au p ∉
        generate_avatar true "pele.png" "speech.mp3" "out.mp4" "." false " n "
          { imageUrl := "https://fal.example/i.png", audioUrl := "https://fal.example/a.mp3",
            duration := 10, videoUrl := "https://fal.example/v.mp4",
            dlStatus := 200, dlBody := "bytes" }) ∧
    (true = true ∧
      AvEvent.promptUser ∉
        generate_avatar true "pele.png" "speech.mp3" "out.mp4" "." true ""
          { imageUrl := "https://fal.example/i.png", audioUrl := "https://fal.example/a.mp3",
            duration := 10, videoUrl := "https://fal.example/v.mp4",
            dlStatus := 200, dlBody := "bytes" }) :=
  ⟨⟨rfl, by decide,
    (C3_cost_confirmation_gates_submission "pele.png" "speech.mp3" "out.mp4" "." false " n "
      { imageUrl := "https://fal.example/i.png", audioUrl := "https://fal.example/a.mp3",
        duration := 10, videoUrl := "https://fal.example/v.mp4",
        dlStatus := 200, dlBody := "bytes" }).1 rfl (by decide) |>.1⟩,
   ⟨rfl,
    ((C3_cost_confirmation_gates_submission "pele.png" "speech.mp3" "out.mp4" "." true ""
      { imageUrl := "https://fal.example/i.png", audioUrl := "https://fal.example/a.mp3",
        duration := 10, videoUrl := "https://fal.example/v.mp4",
        dlStatus := 200, dlBody := "bytes" }).2.2 rfl).1⟩⟩

/-- C4: the SIGINT handler installed around the subscribe call.  When a
request_id has been recorded (a non-empty id; Python truthiness of the
nonlocal `request_id`), the handler attempts a cancel of that job, and a
failure of the cancel call itself is caught and reported — the handler
still reaches `sys.exit(1)`; with no recorded id it exits 1 directly; in
all cases the handler trace ends with exit status 1.  In the
`generate_avatar` trace the handler installation immediately precedes the
subscribe call and the restoration of the default SIGINT disposition
immediately follows its normal return. -/
theorem C4_sigint_handler_cancels_and_exits :
    (∀ request_id cancelOutcome,
      (handle_sigint request_id cancelOutcome).getLast? = some (.exitProc 1)) ∧
    (∀ s cancelOutcome, s ≠ "" →
      AvEvent.cancelJob s ∈ handle_sigint (some s) cancelOutcome) ∧
    (∀ s e, s ≠ "" →
      AvEvent.printMsg ("  Cancel failed: " ++ e) ∈ handle_sigint (some s) (.error e)) ∧
    (∀ cancelOutcome, handle_sigint none cancelOutcome = [.exitProc 1]) ∧
    (∀ imagePath audioPath outputPath promptText yes answer (o : AvatarOracle),
      (confirm_cost o.duration yes answer).2 = true →
      ∃ pre post,
        generate_avatar true imagePath audioPath outputPath promptText yes answer o =
          pre ++ [AvEvent.installSigint,
                  AvEvent.subscribeJob
                    (if pyStartsWith imagePath "http" then imagePath else o.imageUrl)
                    (if pyStartsWith audioPath "http" then audioPath else o.audioUrl)
                    promptText,
                  AvEvent.restoreSigint] ++ post) := by
  refine ⟨fun request_id cancelOutcome => ?_, fun s cancelOutcome hs => ?_,
    fun s e hs => ?_, fun cancelOutcome => rfl, ?_⟩
  · rw [handle_sigint.eq_def, List.getLast?_append]
    rfl
  · cases cancelOutcome <;> simp [handle_sigint, hs]
  · simp [handle_sigint, hs]
  · intro imagePath audioPath outputPath promptText yes answer o hc
    have hsh := generate_avatar_shape imagePath audioPath outputPath promptText yes answer o
    rw [hc, if_pos rfl] at hsh
    refine ⟨((if pyStartsWith imagePath "http" then [] else [AvEvent.uploadFal imagePath]) ++
      (if pyStartsWith audioPath "http" then [] else [AvEvent.uploadFal audioPath])) ++
      (confirm_cost o.duration yes answer).1,
      AvEvent.httpGetReq o.videoUrl ::
        (if isHttpErrorStatus o.dlStatus then [] else [AvEvent.writeFile outputPath o.dlBody]),
      ?_⟩
    rw [hsh]
    simp

/-- C4 at concrete inputs: a recorded request id is cancelled even when the
cancel call raises, the handler trace ends with exit 1, and a concrete
`--yes` run brackets the subscribe call with the handler installation and
the restoration. -/
theorem C4_sigint_handler_cancels_and_exits_witness :
    (("req-123" : String) ≠ "" ∧
      AvEvent.cancelJob "req-123" ∈ handle_sigint (some "req-123") (.error "boom") ∧
      AvEvent.printMsg ("  Cancel failed: " ++ "boom") ∈
        handle_sigint (some "req-123") (.error "boom") ∧
      (handle_sigint (some "req-123") (.error "boom")).getLast? = some (.exitProc 1)) ∧
    ((confirm_cost (10 : ℚ) true "").2 = true ∧
      ∃ pre post,
        generate_avatar true "pele.png" "speech.mp3" "out.mp4" "." true ""
          { imageUrl := "https://fal.example/i.png", audioUrl := "https://fal.example/a.mp3",
            duration := 10, videoUrl := "https://fal.example/v.mp4",
            dlStatus := 200, dlBody := "bytes" } =
          pre ++ [AvEvent.installSigint,
                  AvEvent.subscribeJob
                    (if pyStartsWith "pele.png" "http" then "pele.png"
                     else "https://fal.example/i.png")
                    (if pyStartsWith "speech.mp3" "http" then "speech.mp3"
                     else "https://fal.example/a.mp3")
                    ".",
                  AvEvent.restoreSigint] ++ post) :=
  ⟨⟨by decide,
    C4_sigint_handler_cancels_and_exits.2.1 "req-123" (.error "boom") (by decide),
    C4_sigint_handler_cancels_and_exits.2.2.1 "req-123" "boom" (by decide),
    C4_sigint_handler_cancels_and_exits.1 (some "req-123") (.error "boom")⟩,
   ⟨rfl,
    C4_sigint_handler_cancels_and_exits.2.2.2.2 "pele.png" "speech.mp3" "out.mp4" "." true ""
      { imageUrl := "https://fal.example/i.png", audioUrl := "https://fal.example/a.mp3",
        duration := 10, videoUrl := "https://fal.example/v.mp4",
        dlStatus := 200, dlBody := "bytes" } rfl⟩⟩

/-! ## clone_voice.py -/

/-- An observable action of a clone_voice.py run (the per-file size prints
are omitted; the error prints the claims speak about are kept). -/
inductive CEvent where
  | printMsg (s : String)
  | exitProc (code : Nat)
  | openFile (f : String)
  | apiCreateVoice (name : String) (files : List String) (description : String)
  | closeFile (f : String)
  | raisePropagated
deriving DecidableEq, Repr

/-- `clone_voice(name, files, description)` from clone_voice.py: exit 1
when ELEVENLABS_KEY is unset (empty), then check each listed path in order
and exit 1 naming the first missing one, then open every file, call the
ElevenLabs create API (`apiRaises` is the oracle for it raising), and in
the `finally` block close every handle; on success print the voice id, on
an API exception let it propagate after the closes. -/
def clone_voice (fs : FS) (apiKey name : String) (files : List String)
    (description : String) (apiRaises : Bool) : List CEvent :=
  if apiKey = "" then
    [.printMsg "Error: set ELEVENLABS_KEY environment variable", .exitProc 1]
  else
    match files.find? (fun f => (fs f).isNone) with
    | some f => [.printMsg ("Error: file not found: " ++ f), .exitProc 1]
    | none =>
      files.map .openFile ++ .apiCreateVoice name files description ::
        (files.map .closeFile ++
          (if apiRaises then [.raisePropagated]
           else [.printMsg "Voice cloned successfully!"]))

lemma find?_eq_some_first {α : Type} (p : α → Bool) (pre : List α) (f : α)
    (post : List α) (hpre : ∀ g ∈ pre, p g = false) (hf : p f = true) :
    (pre ++ f :: post).find? p = some f := by
  induction pre with
  | nil => simpa using List.find?_cons_of_pos post hf
  | cons a pre ih =>
    have ha : ¬ p a = true := by simp [hpre a (by simp)]
    rw [List.cons_append, List.find?_cons_of_neg _ ha]
    exact ih (fun g hg => hpre g (by simp [hg]))

/-- C9 (amended): provided ELEVENLABS_KEY is set, a missing listed file
makes the process print an error naming the first missing file and exit
with status 1 before any file is opened and before any network request;
when every listed file exists, all the files are opened, the create call
is made after all the opens, and every opened handle is closed even when
the API call raises. -/
theorem C9_clone_voice_missing_file_check (fs : FS) (apiKey name : String)
    (files : List String) (description : String) (apiRaises : Bool)
    (hkey : apiKey ≠ "") :
    (∀ pre f post, files = pre ++ f :: post → (∀ g ∈ pre, (fs g).isSome) →
      fs f = none →
      clone_voice fs apiKey name files description apiRaises =
        [.printMsg ("Error: file not found: " ++ f), .exitProc 1]) ∧
    ((∀ f ∈ files, (fs f).isSome) →
      clone_voice fs apiKey name files description apiRaises =
        files.map .openFile ++ .apiCreateVoice name files description ::
          (files.map .closeFile ++
            (if apiRaises then [.raisePropagated]
             else [.printMsg "Voice cloned successfully!"])) ∧
      (∀ f ∈ files,
        CEvent.openFile f ∈ clone_voice fs apiKey name files description apiRaises ∧
        CEvent.closeFile f ∈ clone_voice fs apiKey name files description apiRaises)) := by
  constructor
  · intro pre f post hsplit hpre hf
    rw [clone_voice, if_neg hkey, hsplit,
      find?_eq_some_first _ pre f post
        (fun g hg => by rw [Option.isNone_eq_false_iff]; exact hpre g hg)
        (by rw [hf]; rfl)]
  · intro hall
    have hfind : files.find? (fun f => (fs f).isNone) = none := by
      rw [List.find?_eq_none]
      intro x hx
      rw [Option.isNone_iff_eq_none]
      exact Option.isSome_iff_ne_none.mp (hall x hx)
    have htr : clone_voice fs apiKey name files description apiRaises =
        files.map .openFile ++ .apiCreateVoice name files description ::
          (files.map .closeFile ++
            (if apiRaises then [.raisePropagated]
             else [.printMsg "Voice cloned successfully!"])) := by
      rw [clone_voice, if_neg hkey, hfind]
    refine ⟨htr, fun f hf => ?_⟩
    rw [htr]
    constructor
    · exact List.mem_append.mpr (Or.inl (List.mem_map_of_mem _ hf))
    · exact List.mem_append.mpr (Or.inr (List.mem_cons_of_mem _
        (List.mem_append.mpr (Or.inl (List.mem_map_of_mem _ hf)))))

/-- C9 counterexample to the claim as stated: with ELEVENLABS_KEY unset
(the empty string `os.environ.get` returns) and a missing listed file, the
process exits complaining about the key — it does not print an error
naming the first missing file, although a listed path does not exist. -/
theorem C9_clone_voice_missing_key_counterexample :
    (fun _ : String => (none : Option String)) "sample1.mp3" = none ∧
    CEvent.printMsg ("Error: file not found: " ++ "sample1.mp3") ∉
      clone_voice (fun _ => none) "" "Pele" ["sample1.mp3"] "" false ∧
    clone_voice (fun _ => none) "" "Pele" ["sample1.mp3"] "" false =
      [.printMsg "Error: set ELEVENLABS_KEY environment variable", .exitProc 1] := by
  refine ⟨rfl, ?_, rfl⟩
  decide

/-- C9 at concrete inputs: with the key set, a missing second file is
reported by name with exit 1, and with both files present every opened
handle is closed even though the API call raises. -/
theorem C9_clone_voice_missing_file_check_witness :
    (("key" : String) ≠ "" ∧
      clone_voice (fun p => if p = "a.mp3" then some "A" else none)
        "key" "Pele" ["a.mp3", "b.mp3"] "" false =
        [.printMsg ("Error: file not found: " ++ "b.mp3"), .exitProc 1]) ∧
    (CEvent.openFile "a.mp3" ∈
        clone_voice (fun _ => some "A") "key" "Pele" ["a.mp3", "b.mp3"] "" true ∧
      CEvent.closeFile "a.mp3" ∈
        clone_voice (fun _ => some "A") "key" "Pele" ["a.mp3", "b.mp3"] "" true) := by
  have hkey : ("key" : String) ≠ "" := by decide
  refine ⟨⟨hkey, ?_⟩, ?_⟩
  · exact (C9_clone_voice_missing_file_check
      (fun p => if p = "a.mp3" then some "A" else none) "key" "Pele"
      ["a.mp3", "b.mp3"] "" false hkey).1 ["a.mp3"] "b.mp3" [] rfl
      (by intro g hg; simp at hg; subst hg; decide) (by decide)
  · exact ((C9_clone_voice_missing_file_check (fun _ => some "A") "key" "Pele"
      ["a.mp3", "b.mp3"] "" true hkey).2
      (by intro f hf; decide)).2 "a.mp3" (by decide)

/-! ## The four-step shape of the three scripts (upload, submit, poll,
download) -/

/-- The coarse pipeline steps the specification describes. -/
inductive StepLabel where
  | uploadStep
  | submitJob
  | pollStep
  | downloadStep
deriving DecidableEq, Repr

/-- Classify a kling_lipsync.py action: a POST without auth headers is the
tmpfiles.org hosting upload; a POST with auth headers is a job submission;
a GET with auth headers is a polling request; the file write is the result
download (the result GET itself carries no headers and is part of the
download step). -/
def kStep : KEvent → List StepLabel
  | .request req =>
    match req.headers with
    | none => if req.method = "POST" then [.uploadStep] else []
    | some _ => if req.method = "POST" then [.submitJob] else [.pollStep]
  | .writeFile _ _ => [.downloadStep]

/-- The step trace of a kling_lipsync.py run. -/
def stepsOfKling (t : List KEvent) : List StepLabel := t.flatMap kStep

/-- Classify an avatar.py action.  `fal_client.subscribe` both submits the
job to the fal.ai queue and waits on the queue subscription until
completion — the spec counts it as one of the three poll variations — so
it contributes a submission step followed by a polling step. -/
def avStep : AvEvent → List StepLabel
  | .uploadFal _ => [.uploadStep]
  | .subscribeJob _ _ _ => [.submitJob, .pollStep]
  | .writeFile _ _ => [.downloadStep]
  | _ => []

/-- The step trace of an avatar.py `generate_avatar` run. -/
def stepsOfAvatar (t : List AvEvent) : List StepLabel := t.flatMap avStep

/-- Classify a clone_voice.py action: the single synchronous
`client.voices.ivc.create` call submits the cloning job; nothing in the
script polls a status endpoint or downloads a result. -/
def cStep : CEvent → List StepLabel
  | .apiCreateVoice _ _ _ => [.submitJob]
  | _ => []

/-- The step trace of a clone_voice.py run. -/
def stepsOfClone (t : List CEvent) : List StepLabel := t.flatMap cStep

lemma stepsOfKling_nil : stepsOfKling [] = [] := rfl

lemma stepsOfKling_cons (e : KEvent) (t : List KEvent) :
    stepsOfKling (e :: t) = kStep e ++ stepsOfKling t := rfl

lemma stepsOfKling_append (a b : List KEvent) :
    stepsOfKling (a ++ b) = stepsOfKling a ++ stepsOfKling b := by
  simp [stepsOfKling]

lemma stepsOfAvatar_nil : stepsOfAvatar [] = [] := rfl

lemma stepsOfAvatar_cons (e : AvEvent) (t : List AvEvent) :
    stepsOfAvatar (e :: t) = avStep e ++ stepsOfAvatar t := rfl

lemma stepsOfAvatar_append (a b : List AvEvent) :
    stepsOfAvatar (a ++ b) = stepsOfAvatar a ++ stepsOfAvatar b := by
  simp [stepsOfAvatar]

lemma kStep_get_auth (url : String) (h : Headers) (t : Int) :
    kStep (.request { method := "GET", url := url, headers := some h, time := t }) =
      [.pollStep] := rfl

lemma kStep_post_auth (url : String) (h : Headers) (t : Int) :
    kStep (.request { method := "POST", url := url, headers := some h, time := t }) =
      [.submitJob] := rfl

lemma kStep_post_noauth (url : String) (t : Int) :
    kStep (.request { method := "POST", url := url, headers := none, time := t }) =
      [.uploadStep] := rfl

lemma kStep_get_noauth (url : String) (t : Int) :
    kStep (.request { method := "GET", url := url, headers := none, time := t }) =
      [] := rfl

lemma stepsOfKling_pollRequests (accessKey secretKey : String) (clock : Nat → Int)
    (url : String) (r : Nat → TaskData) (m : Nat) :
    stepsOfKling ((pollRequests accessKey secretKey clock url r m).map .request) =
      List.replicate (attemptsUsedAux r m) .pollStep := by
  induction m generalizing clock r with
  | zero => rfl
  | succ m ih =>
    simp only [pollRequests, attemptsUsedAux]
    cases ht : isTerminal (r 0) with
    | true =>
      rw [if_pos rfl, if_pos rfl]
      rfl
    | false =>
      rw [if_neg Bool.false_ne_true, if_neg Bool.false_ne_true, List.map_cons,
        stepsOfKling_cons, kStep_get_auth, ih, Nat.add_comm 1, List.replicate_succ]
      rfl

lemma stepsOfKling_image_to_video (accessKey secretKey imagePath taskId : String)
    (clock : Nat → Int) (r : Nat → TaskData) :
    stepsOfKling (image_to_video_events accessKey secretKey imagePath taskId clock r) =
      (if pyStartsWith imagePath "http" then [] else [StepLabel.uploadStep]) ++
      StepLabel.submitJob :: List.replicate (attemptsUsed r 120) .pollStep := by
  simp only [image_to_video_events]
  by_cases hip : pyStartsWith imagePath "http"
  · rw [if_pos hip, if_pos hip, List.nil_append, List.nil_append, stepsOfKling_cons,
      kStep_post_auth, stepsOfKling_pollRequests]
    rfl
  · rw [if_neg hip, if_neg hip, List.cons_append, List.nil_append, stepsOfKling_cons,
      stepsOfKling_cons, kStep_post_noauth, kStep_post_auth, stepsOfKling_pollRequests]
    rfl

lemma stepsOfKling_lip_sync (accessKey secretKey audioPath taskId : String)
    (clock : Nat → Int) (r : Nat → TaskData) :
    stepsOfKling (lip_sync_events accessKey secretKey audioPath taskId clock r) =
      (if pyStartsWith audioPath "http" then [] else [StepLabel.uploadStep]) ++
      StepLabel.submitJob :: List.replicate (attemptsUsed r 120) .pollStep := by
  simp only [lip_sync_events]
  by_cases hap : pyStartsWith audioPath "http"
  · rw [if_pos hap, if_pos hap, List.nil_append, List.nil_append, stepsOfKling_cons,
      kStep_post_auth, stepsOfKling_pollRequests]
    rfl
  · rw [if_neg hap, if_neg hap, List.cons_append, List.nil_append, stepsOfKling_cons,
      stepsOfKling_cons, kStep_post_noauth, kStep_post_auth, stepsOfKling_pollRequests]
    rfl

lemma stepsOfAvatar_confirm_cost (d : ℚ) (y : Bool) (a : String) :
    stepsOfAvatar (confirm_cost d y a).1 = [] := by
  cases y with
  | true => simp [confirm_cost, stepsOfAvatar, avStep]
  | false =>
    by_cases ha : pyLower (pyStrip a) = "y" <;>
      simp [confirm_cost, ha, stepsOfAvatar, avStep]

lemma stepsOfClone_all_submit (t : List CEvent) :
    ∀ s ∈ stepsOfClone t, s = StepLabel.submitJob := by
  intro s hs
  rw [stepsOfClone, List.mem_flatMap] at hs
  obtain ⟨e, he, hse⟩ := hs
  cases e <;> simp [cStep] at hse
  exact hse

/-- C5 (amended): the two video scripts realise the four-step shape on a
successful run — kling_lipsync.py uploads each local (non-http) input to
the hosting endpoint, submits, polls (at least one polling GET per
submission) and downloads, twice in sequence for its two jobs, and
avatar.py uploads each local input to fal.ai storage, submits/polls via
the queue subscription, and downloads — while clone_voice.py only submits
its single synchronous voice-creation call: its step trace never contains
a polling step or a download step. -/
theorem C5_amended_four_step_shape :
    (∀ accessKey secretKey imagePath audioPath outputPath (o : KlingOracle) d1 d2,
      poll o.r1 5 120 = .success d1 → poll o.r2 5 120 = .success d2 →
      isHttpErrorStatus o.dlStatus = false →
      stepsOfKling (klingMainRun accessKey secretKey imagePath audioPath outputPath o) =
        ((if pyStartsWith imagePath "http" then [] else [StepLabel.uploadStep]) ++
         StepLabel.submitJob :: List.replicate (attemptsUsed o.r1 120) .pollStep) ++
        ((if pyStartsWith audioPath "http" then [] else [StepLabel.uploadStep]) ++
         StepLabel.submitJob :: List.replicate (attemptsUsed o.r2 120) .pollStep) ++
        [StepLabel.downloadStep] ∧
      1 ≤ attemptsUsed o.r1 120 ∧ 1 ≤ attemptsUsed o.r2 120) ∧
    (∀ imagePath audioPath outputPath promptText yes answer (o : AvatarOracle),
      (confirm_cost o.duration yes answer).2 = true →
      isHttpErrorStatus o.dlStatus = false →
      stepsOfAvatar (generate_avatar true imagePath audioPath outputPath promptText
          yes answer o) =
        (if pyStartsWith imagePath "http" then [] else [StepLabel.uploadStep]) ++
        (if pyStartsWith audioPath "http" then [] else [StepLabel.uploadStep]) ++
        [StepLabel.submitJob, StepLabel.pollStep, StepLabel.downloadStep]) ∧
    (∀ fs apiKey name files description apiRaises,
      StepLabel.pollStep ∉
        stepsOfClone (clone_voice fs apiKey name files description apiRaises) ∧
      StepLabel.downloadStep ∉
        stepsOfClone (clone_voice fs apiKey name files description apiRaises)) := by
  refine ⟨?_, ?_, ?_⟩
  · intro accessKey secretKey imagePath audioPath outputPath o d1 d2 hp1 hp2 hdl
    refine ⟨?_, attemptsUsedAux_pos 120 o.r1 (by omega),
      attemptsUsedAux_pos 120 o.r2 (by omega)⟩
    rw [klingMainRun.eq_def, hp1, hp2]
    simp only [hdl, Bool.false_eq_true, if_false]
    rw [stepsOfKling_append, stepsOfKling_append, stepsOfKling_cons, kStep_get_noauth,
      stepsOfKling_cons, stepsOfKling_image_to_video, stepsOfKling_lip_sync]
    simp [kStep, stepsOfKling_nil]
  · intro imagePath audioPath outputPath promptText yes answer o hc hdl
    rw [generate_avatar_shape, hc, if_pos rfl]
    rw [stepsOfAvatar_append, stepsOfAvatar_append, stepsOfAvatar_confirm_cost,
      stepsOfAvatar_append]
    simp only [hdl, Bool.false_eq_true, if_false]
    by_cases hi : pyStartsWith imagePath "http" <;>
      by_cases ha : pyStartsWith audioPath "http" <;>
        simp [hi, ha, stepsOfAvatar_cons, stepsOfAvatar_append, stepsOfAvatar_nil, avStep,
          stepsOfAvatar]
  · intro fs apiKey name files description apiRaises
    constructor
    · intro h
      have := stepsOfClone_all_submit _ _ h
      cases this
    · intro h
      have := stepsOfClone_all_submit _ _ h
      cases this

/-- C5 counterexample to the claim as stated: a fully successful
clone_voice.py run — key set, sample file present, API call returns —
performs only the submission step; it neither polls for completion nor
downloads a result, so clone_voice.py does not have the four-step shape. -/
theorem C5_clone_voice_no_poll_no_download_counterexample :
    stepsOfClone (clone_voice (fun _ => some "A") "key" "Pele" ["s1.mp3"] "" false) =
      [StepLabel.submitJob] ∧
    StepLabel.pollStep ∉
      stepsOfClone (clone_voice (fun _ => some "A") "key" "Pele" ["s1.mp3"] "" false) ∧
    StepLabel.downloadStep ∉
      stepsOfClone (clone_voice (fun _ => some "A") "key" "Pele" ["s1.mp3"] "" false) := by
  refine ⟨by decide, by decide, by decide⟩

/-- A concrete oracle for a fully successful kling_lipsync.py run, used to
instantiate the amended C5. -/
def klingOracleC5 : KlingOracle :=
  { clock1 := fun _ => 1000, clock2 := fun _ => 2000, dlTime := 3000
    taskId1 := "t1", taskId2 := "t2"
    r1 := fun _ => { task_status := "succeed", task_status_msg := none,
                     video_url := "https://cdn.example.com/a.mp4", video_id := "vid1" }
    r2 := fun _ => { task_status := "succeed", task_status_msg := none,
                     video_url := "https://cdn.example.com/v.mp4", video_id := "vid" }
    dlStatus := 200, dlBody := "bytes" }

/-- C5 (amended) at concrete inputs: a successful kling run with two local
inputs, a successful avatar run, and a successful clone run. -/
theorem C5_amended_four_step_shape_witness :
    (poll klingOracleC5.r1 5 120 =
        .success { task_status := "succeed", task_status_msg := none,
                   video_url := "https://cdn.example.com/a.mp4", video_id := "vid1" } ∧
      stepsOfKling (klingMainRun "ak" "sk" "pele.png" "speech.mp3" "out.mp4" klingOracleC5) =
        ((if pyStartsWith "pele.png" "http" then [] else [StepLabel.uploadStep]) ++
         StepLabel.submitJob :: List.replicate (attemptsUsed klingOracleC5.r1 120) .pollStep) ++
        ((if pyStartsWith "speech.mp3" "http" then [] else [StepLabel.uploadStep]) ++
         StepLabel.submitJob :: List.replicate (attemptsUsed klingOracleC5.r2 120) .pollStep) ++
        [StepLabel.downloadStep]) ∧
    stepsOfAvatar (generate_avatar true "pele.png" "speech.mp3" "out.mp4" "." true ""
        { imageUrl := "https://fal.example/i.png", audioUrl := "https://fal.example/a.mp3",
          duration := 10, videoUrl := "https://fal.example/v.mp4",
          dlStatus := 200, dlBody := "bytes" }) =
      (if pyStartsWith "pele.png" "http" then [] else [StepLabel.uploadStep]) ++
      (if pyStartsWith "speech.mp3" "http" then [] else [StepLabel.uploadStep]) ++
      [StepLabel.submitJob, StepLabel.pollStep, StepLabel.downloadStep] ∧
    StepLabel.pollStep ∉
      stepsOfClone (clone_voice (fun _ => some "A") "k" "Pele" ["x.mp3"] "" false) :=
  ⟨⟨rfl,
    (C5_amended_four_step_shape.1 "ak" "sk" "pele.png" "speech.mp3" "out.mp4" klingOracleC5
      _ _ rfl rfl (by decide)).1⟩,
   C5_amended_four_step_shape.2.1 "pele.png" "speech.mp3" "out.mp4" "." true ""
     { imageUrl := "https://fal.example/i.png", audioUrl := "https://fal.example/a.mp3",
       duration := 10, videoUrl := "https://fal.example/v.mp4",
       dlStatus := 200, dlBody := "bytes" } rfl (by decide),
   (C5_amended_four_step_shape.2.2 (fun _ => some "A") "k" "Pele" ["x.mp3"] "" false).1⟩

end KlingAvatar
